import Mathlib

/-!
Verification of the task-orchestration core of the gemini-mcp-python
repository: the data model (`src/gemini_mcp/models.py`), the remote-execution
client with quota fallback (`src/gemini_mcp/gemini_client.py`), and the
orchestrator (`src/gemini_mcp/orchestrator.py`).

Modelling conventions:
* The remote generation service (`model.generate_content`) is an external
  collaborator; it is modelled as an oracle giving, for every
  (model, prompt) pair, the outcome of one call (success text,
  quota-exhausted, or other failure) and its duration in abstract ticks.
* Wall-clock time (`time.time()`) is a natural-number tick counter threaded
  through execution; every remote call advances it by the oracle's duration.
* Every remote invocation is recorded in a ghost call log so that retry
  counts are observable facts about the embedding.
* Python exceptions raised by `generate_content` / `response.text` are the
  `quotaExhausted` and `failure` outcomes; the `try/except` of
  `execute_task` turns them into FAILED results, so the embedded function
  is total.
* Python's `uuid` draws are modelled as explicit identifier arguments, and
  the `asyncio` scheduler's freedom in interleaving a parallel batch is
  modelled by quantifying over the start instant of every in-flight task.
* The orchestrator's dict registries are modelled as partial maps
  `String -> Option _` (only lookup, insertion and deletion are used by the
  source, never iteration order).
-/

namespace GeminiMcp

/-- Status enum from models.py (`TaskStatus`). -/
inductive TaskStatus where
  | pending
  | running
  | completed
  | failed
  deriving DecidableEq, Repr

/-- Priority enum from models.py (`TaskPriority`), in declaration order
LOW, MEDIUM, HIGH, URGENT. -/
inductive TaskPriority where
  | low
  | medium
  | high
  | urgent
  deriving DecidableEq, Repr

/-- Position of a priority in `list(TaskPriority)` (declaration order), as
used by the sort key in orchestrator.py line 57. -/
def priorityIndex : TaskPriority → Nat
  | TaskPriority.low => 0
  | TaskPriority.medium => 1
  | TaskPriority.high => 2
  | TaskPriority.urgent => 3

/-- GeminiTask from models.py.  `context` is an insertion-ordered dict of
string keys to string values (`Dict[str, Any]` whose values are rendered
through an f-string, hence strings here); `none` is Python `None`. -/
structure GeminiTask where
  id : String
  prompt : String
  model : String
  priority : TaskPriority
  status : TaskStatus
  result : Option String
  error : Option String
  context : Option (List (String × String))
  deriving DecidableEq, Repr

/-- TaskResult from models.py. -/
structure TaskResult where
  task_id : String
  status : TaskStatus
  result : Option String
  error : Option String
  execution_time : Option Nat
  deriving DecidableEq, Repr

/-- TaskBatch from models.py. -/
structure TaskBatch where
  id : String
  tasks : List GeminiTask
  parallel : Bool
  deriving DecidableEq, Repr

/-- BatchResult from models.py. -/
structure BatchResult where
  batch_id : String
  completed_tasks : Nat
  failed_tasks : Nat
  total_tasks : Nat
  results : List TaskResult
  total_time : Nat
  deriving DecidableEq, Repr

/-- Outcome of one remote `generate_content` call: the response text, the
`ResourceExhausted` exception, or any other exception with its message. -/
inductive RemoteOutcome where
  | success (text : String)
  | quotaExhausted
  | failure (msg : String)
  deriving DecidableEq, Repr

/-- Oracle for the external generation service: for every (model, prompt)
pair, the outcome of one call and its duration in clock ticks. -/
structure Oracle where
  gen : String → String → RemoteOutcome
  dur : String → String → Nat

/-- Execution state threaded through the client: the current wall clock
(`time.time()` in ticks) and a ghost log of every remote invocation
(model, prompt) in the order they were issued. -/
structure ExecState where
  clock : Nat
  calls : List (String × String)
  deriving DecidableEq, Repr

/-- The hard-coded low-cost fallback model of gemini_client.py line 73. -/
def fallbackModel : String := "gemini-2.5-flash"

/-- Python truthiness of the optional context dict: `if task.context:` is
false for `None` and for an empty dict. -/
def pyTruthy : Option (List (String × String)) → Bool
  | none => false
  | some l => !l.isEmpty

/-- Prompt construction of gemini_client.py lines 47-51: if the context is
truthy, join each pair as "key: value" with newlines and put the original
prompt on the following line; otherwise the prompt alone. -/
def buildPrompt (task : GeminiTask) : String :=
  if pyTruthy task.context then
    String.intercalate "\n" ((task.context.getD []).map fun kv => kv.1 ++ ": " ++ kv.2)
      ++ "\n" ++ task.prompt
  else
    task.prompt

/-- Python string interpolation of an optional string (`f"{x}"` prints
`None` for `None`). -/
def pyStr : Option String → String
  | none => "None"
  | some s => s

/-- GeminiClient.execute_task (gemini_client.py lines 39-97).  Returns the
final state of the (mutated) task, the TaskResult, and the updated
execution state.  The recursion at line 75 is the quota fallback: it can
fire at most once because the retried task's model is the fallback model. -/
def execute_task (o : Oracle) (s : ExecState) (task : GeminiTask) :
    GeminiTask × TaskResult × ExecState :=
  let start_time := s.clock
  let task1 := { task with status := TaskStatus.running }
  let full_prompt := buildPrompt task1
  let s1 : ExecState :=
    { clock := s.clock + o.dur task1.model full_prompt,
      calls := s.calls ++ [(task1.model, full_prompt)] }
  match o.gen task1.model full_prompt with
  | RemoteOutcome.success text =>
    let execution_time := s1.clock - start_time
    let task2 := { task1 with status := TaskStatus.completed, result := some text }
    (task2,
      { task_id := task2.id, status := TaskStatus.completed, result := some text,
        error := none, execution_time := some execution_time }, s1)
  | RemoteOutcome.quotaExhausted =>
    if task1.model ≠ fallbackModel then
      execute_task o s1 { task1 with model := fallbackModel }
    else
      let error_msg := "Quota exceeded for both Pro and Flash models"
      let task2 := { task1 with status := TaskStatus.failed, error := some error_msg }
      (task2,
        { task_id := task2.id, status := TaskStatus.failed, result := none,
          error := some error_msg, execution_time := some (s1.clock - start_time) }, s1)
  | RemoteOutcome.failure e =>
    let error_msg := "Task execution failed: " ++ e
    let task2 := { task1 with status := TaskStatus.failed, error := some error_msg }
    (task2,
      { task_id := task2.id, status := TaskStatus.failed, result := none,
        error := some error_msg, execution_time := some (s1.clock - start_time) }, s1)
termination_by (if task.model = fallbackModel then 0 else 1)
decreasing_by simp_all

/-- GeminiClient.execute_tasks_parallel (gemini_client.py lines 99-125).
All tasks are started concurrently under a semaphore; `asyncio.gather`
returns the results aligned with its argument order, i.e. with the input
task order.  `clocks i` is the (schedule-dependent) instant at which task
`i`'s execution begins; each in-flight execution keeps its own ghost call
log.  The `return_exceptions=True` conversion loop of lines 113-123 is
vacuous here because the embedded `execute_task` is total. -/
def execute_tasks_parallel (o : Oracle) (clocks : Nat → Nat)
    (tasks : List GeminiTask) : List TaskResult :=
  tasks.enum.map fun p => (execute_task o { clock := clocks p.1, calls := [] } p.2).2.1

/-- GeminiClient.execute_tasks_sequential (gemini_client.py lines 127-133):
one task at a time in input order, threading the clock and call log. -/
def execute_tasks_sequential (o : Oracle) (s : ExecState) :
    List GeminiTask → List TaskResult × ExecState
  | [] => ([], s)
  | t :: ts =>
    let step := execute_task o s t
    let rest := execute_tasks_sequential o step.2.2 ts
    (step.2.1 :: rest.1, rest.2)

/-- Orchestrator state (orchestrator.py lines 16-20): the concurrency bound
and the two registries, modelled as partial maps keyed by identity. -/
structure Orchestrator where
  max_concurrent : Nat
  active_batches : String → Option TaskBatch
  completed_batches : String → Option BatchResult

/-- Comparator realising the descending priority order of orchestrator.py
line 55-59: `a` may come before `b` when `a`'s priority index is at least
`b`'s. -/
def taskLE (a b : GeminiTask) : Bool :=
  decide (priorityIndex b.priority ≤ priorityIndex a.priority)

/-- Sort of orchestrator.py lines 55-59: Python's `sorted` with
`key=lambda t: list(TaskPriority).index(t.priority)` and `reverse=True`,
i.e. the stable descending sort by priority index.  `List.mergeSort` with
`taskLE` is exactly that function: it is stable (ties keep their input
order) and its output is pairwise `taskLE`, i.e. descending in the key. -/
def sortTasks (tasks : List GeminiTask) : List GeminiTask :=
  tasks.mergeSort taskLE

/-- TaskOrchestrator.execute_batch (orchestrator.py lines 50-87).  `clocks`
gives the start instants of the in-flight tasks of the parallel branch and
`wall` the wall-clock duration of the whole parallel phase, both determined
by the scheduler's interleaving; the sequential branch threads the state
directly.  Returns the BatchResult, the updated orchestrator, and the
updated execution state. -/
def execute_batch (o : Oracle) (clocks : Nat → Nat) (wall : Nat)
    (orch : Orchestrator) (s : ExecState) (batch : TaskBatch) :
    BatchResult × Orchestrator × ExecState :=
  let start_time := s.clock
  let sorted_tasks := sortTasks batch.tasks
  let step :=
    if batch.parallel then
      (execute_tasks_parallel o clocks sorted_tasks,
        { clock := s.clock + wall, calls := s.calls })
    else
      execute_tasks_sequential o s sorted_tasks
  let results := step.1
  let completed := results.countP fun r => decide (r.status = TaskStatus.completed)
  let failed := results.countP fun r => decide (r.status = TaskStatus.failed)
  let total_time := step.2.clock - start_time
  let batch_result : BatchResult :=
    { batch_id := batch.id, completed_tasks := completed, failed_tasks := failed,
      total_tasks := results.length, results := results, total_time := total_time }
  let orch1 :=
    if (orch.active_batches batch.id).isSome then
      { orch with active_batches := fun k => if k = batch.id then none else orch.active_batches k }
    else
      orch
  let orch2 :=
    { orch1 with completed_batches := fun k =>
        if k = batch.id then some batch_result else orch1.completed_batches k }
  (batch_result, orch2, step.2)

/-- Status record returned by TaskOrchestrator.get_batch_status
(orchestrator.py lines 133-153): the "active" dict or the "completed"
dict. -/
inductive StatusReport where
  | active (batch_id : String) (total_tasks : Nat) (parallel : Bool)
  | completed (batch_id : String) (completed_tasks failed_tasks total_tasks : Nat)
      (total_time : Nat)
  deriving DecidableEq, Repr

/-- TaskOrchestrator.get_batch_status (orchestrator.py lines 133-153):
look in the active registry first, then in the completed registry. -/
def get_batch_status (orch : Orchestrator) (batch_id : String) : Option StatusReport :=
  match orch.active_batches batch_id with
  | some batch => some (StatusReport.active batch_id batch.tasks.length batch.parallel)
  | none =>
    match orch.completed_batches batch_id with
    | some r =>
      some (StatusReport.completed batch_id r.completed_tasks r.failed_tasks
        r.total_tasks r.total_time)
    | none => none

/-- Whether a get_batch_status answer reports the batch as active. -/
def reportsActive : Option StatusReport → Bool
  | some (StatusReport.active _ _ _) => true
  | _ => false

/-- Whether a get_batch_status answer reports the batch as completed. -/
def reportsCompleted : Option StatusReport → Bool
  | some (StatusReport.completed _ _ _ _ _) => true
  | _ => false

/-- TaskOrchestrator.create_task (orchestrator.py lines 22-37): a fresh
PENDING task.  The `uuid` draw is the explicit `task_id` argument. -/
def create_task (task_id : String) (prompt : String) (model : String)
    (priority : TaskPriority) (context : Option (List (String × String))) : GeminiTask :=
  { id := task_id, prompt := prompt, model := model, priority := priority,
    status := TaskStatus.pending, result := none, error := none, context := context }

/-- TaskOrchestrator.create_batch (orchestrator.py lines 39-48): build the
batch and register it in the active registry. -/
def create_batch (orch : Orchestrator) (batch_id : String) (tasks : List GeminiTask)
    (parallel : Bool) : TaskBatch × Orchestrator :=
  let batch : TaskBatch := { id := batch_id, tasks := tasks, parallel := parallel }
  (batch,
    { orch with active_batches := fun k =>
        if k = batch_id then some batch else orch.active_batches k })

/-- TaskOrchestrator.quick_ask (orchestrator.py lines 93-106): create a
single task (default priority MEDIUM), execute it directly through the
client — touching no registry — and either return its result text or
signal the failure message.  `Except.error` models the raised
`Exception`. -/
def quick_ask (o : Oracle) (orch : Orchestrator) (s : ExecState) (task_id : String)
    (prompt : String) (model : String) (context : Option (List (String × String))) :
    Except String (Option String) × Orchestrator × ExecState :=
  let task := create_task task_id prompt model TaskPriority.medium context
  let step := execute_task o s task
  if step.2.1.status = TaskStatus.completed then
    (Except.ok step.2.1.result, orch, step.2.2)
  else
    (Except.error ("Task failed: " ++ pyStr step.2.1.error), orch, step.2.2)

/-- Result-iteration loop of TaskOrchestrator.parallel_ask (orchestrator.py
lines 124-129): collect result texts in order, aborting with the raised
message at the first result whose status is not COMPLETED. -/
def collectResults : List TaskResult → Except String (List (Option String))
  | [] => Except.ok []
  | r :: rest =>
    if r.status = TaskStatus.completed then
      match collectResults rest with
      | Except.ok xs => Except.ok (r.result :: xs)
      | Except.error e => Except.error e
    else
      Except.error ("Task " ++ r.task_id ++ " failed: " ++ pyStr r.error)

/-- Task list built by TaskOrchestrator.parallel_ask (orchestrator.py lines
115-118): one task per prompt, shared model and context, default priority
MEDIUM; `ids i` is the uuid drawn for the i-th task. -/
def mkParallelTasks (ids : Nat → String) (prompts : List String) (model : String)
    (context : Option (List (String × String))) : List GeminiTask :=
  prompts.enum.map fun p => create_task (ids p.1) p.2 model TaskPriority.medium context

/-- TaskOrchestrator.parallel_ask (orchestrator.py lines 108-131): build the
tasks, register a parallel batch, execute it, then iterate the batch
results.  The orchestrator and clock state are returned alongside because
the registry mutation of execute_batch persists even when the iteration
raises. -/
def parallel_ask (o : Oracle) (clocks : Nat → Nat) (wall : Nat) (orch : Orchestrator)
    (s : ExecState) (ids : Nat → String) (batch_id : String) (prompts : List String)
    (model : String) (context : Option (List (String × String))) :
    Except String (List (Option String)) × Orchestrator × ExecState :=
  let tasks := mkParallelTasks ids prompts model context
  let created := create_batch orch batch_id tasks true
  let run := execute_batch o clocks wall created.2 s created.1
  (collectResults run.1.results, run.2.1, run.2.2)

/-- Results list that parallel_ask iterates over: the results of the
BatchResult produced by its internal execute_batch call. -/
def parallelAskResults (o : Oracle) (clocks : Nat → Nat) (wall : Nat)
    (orch : Orchestrator) (s : ExecState) (ids : Nat → String) (batch_id : String)
    (prompts : List String) (model : String)
    (context : Option (List (String × String))) : List TaskResult :=
  let tasks := mkParallelTasks ids prompts model context
  let created := create_batch orch batch_id tasks true
  (execute_batch o clocks wall created.2 s created.1).1.results

/-- Effective prompt, modelled from the spec's words: "if `context` is
non-empty, prepend each key-value pair as `\x7bkey\x7d: \x7bvalue\x7d`
joined by newlines, followed by the original prompt on its own line";
if the context is empty or absent, the prompt alone.  Stated independently
of `buildPrompt` so the two can be compared. -/
def specEffectivePrompt (t : GeminiTask) : String :=
  match t.context with
  | none => t.prompt
  | some [] => t.prompt
  | some ctx =>
    String.intercalate "\n" (ctx.map fun kv => kv.1 ++ ": " ++ kv.2) ++ "\n" ++ t.prompt

/-- Well-formedness of a TaskResult produced for a task: it carries the
task's identity and is either COMPLETED with a result text or FAILED with
an error text. -/
def goodResult (t : GeminiTask) (r : TaskResult) : Prop :=
  r.task_id = t.id ∧
    ((r.status = TaskStatus.completed ∧ r.result.isSome = true) ∨
      (r.status = TaskStatus.failed ∧ r.error.isSome = true))

/-- Oracle whose every call reports quota exhaustion. -/
def oQuota : Oracle :=
  { gen := fun _ _ => RemoteOutcome.quotaExhausted, dur := fun _ _ => 5 }

/-- Oracle that reports quota exhaustion for every model but the fallback
model, for which it succeeds; the fallback call takes 7 ticks, any other
100. -/
def oC10 : Oracle :=
  { gen := fun m _ =>
      if m = fallbackModel then RemoteOutcome.success "ok" else RemoteOutcome.quotaExhausted,
    dur := fun m _ => if m = fallbackModel then 7 else 100 }

/-- Concrete task targeting the default pro model. -/
def taskPro : GeminiTask :=
  create_task "t1" "hello" "gemini-2.5-pro" TaskPriority.medium none

/-- Initial execution state: clock zero, empty call log. -/
def s0 : ExecState := { clock := 0, calls := [] }

/-- Concrete task with a given identity and priority. -/
def mkPrioTask (i : String) (p : TaskPriority) : GeminiTask :=
  { id := i, prompt := "p", model := "gemini-2.5-pro", priority := p,
    status := TaskStatus.pending, result := none, error := none, context := none }

/-- Task list whose priorities are [LOW, URGENT, MEDIUM, URGENT] in
submission order, the example of the spec's stable-sort property. -/
def exampleTasks : List GeminiTask :=
  [mkPrioTask "l" TaskPriority.low, mkPrioTask "u1" TaskPriority.urgent,
    mkPrioTask "m" TaskPriority.medium, mkPrioTask "u2" TaskPriority.urgent]

/-- Parallel batch holding the example tasks. -/
def exampleBatch : TaskBatch :=
  { id := "b1", tasks := exampleTasks, parallel := true }

/-! Helper lemmas about `execute_task`.  The quota-fallback recursion has
depth at most one, so every property is proved in two steps: first for a
task already on the fallback model (where the recursion branch is
impossible), then in general. -/

theorem buildPrompt_running (t : GeminiTask) :
    buildPrompt { t with status := TaskStatus.running } = buildPrompt t := rfl

theorem buildPrompt_set_model (t : GeminiTask) (m : String) :
    buildPrompt { t with model := m } = buildPrompt t := rfl

theorem execute_task_good_flash (o : Oracle) (s : ExecState) (t : GeminiTask)
    (h : t.model = fallbackModel) : goodResult t (execute_task o s t).2.1 := by
  rw [execute_task.eq_def]
  dsimp only
  split <;> simp_all [goodResult]

theorem execute_task_good (o : Oracle) (s : ExecState) (t : GeminiTask) :
    goodResult t (execute_task o s t).2.1 := by
  rw [execute_task.eq_def]
  dsimp only
  split
  · simp [goodResult]
  · split
    · have h := execute_task_good_flash o
        { clock := s.clock + o.dur ({ t with status := TaskStatus.running }).model
            (buildPrompt { t with status := TaskStatus.running }),
          calls := s.calls ++ [(({ t with status := TaskStatus.running }).model,
            buildPrompt { t with status := TaskStatus.running })] }
        { t with status := TaskStatus.running, model := fallbackModel } rfl
      simpa [goodResult] using h
    · simp [goodResult]
  · simp [goodResult]

theorem execute_task_calls_flash (o : Oracle) (s : ExecState) (t : GeminiTask)
    (h : t.model = fallbackModel) :
    (execute_task o s t).2.2.calls = s.calls ++ [(t.model, buildPrompt t)] := by
  rw [execute_task.eq_def]
  dsimp only
  split <;> simp_all [buildPrompt]

theorem execute_task_calls (o : Oracle) (s : ExecState) (t : GeminiTask) :
    ∃ l, (execute_task o s t).2.2.calls = s.calls ++ ((t.model, buildPrompt t) :: l) := by
  rw [execute_task.eq_def]
  dsimp only
  split
  · exact ⟨[], by simp [buildPrompt]⟩
  · split
    · refine ⟨[(fallbackModel, buildPrompt t)], ?_⟩
      rw [execute_task_calls_flash o _ _ rfl]
      simp [buildPrompt]
    · exact ⟨[], by simp [buildPrompt]⟩
  · exact ⟨[], by simp [buildPrompt]⟩

/-- Reduction of the quota branch: when the first attempt reports quota
exhaustion on a non-fallback model, execute_task re-runs itself on the same
task moved to the fallback model, from the clock reached after the first
call, with the first call logged. -/
theorem execute_task_quota_retry (o : Oracle) (s : ExecState) (t : GeminiTask)
    (h1 : t.model ≠ fallbackModel)
    (h2 : o.gen t.model (buildPrompt t) = RemoteOutcome.quotaExhausted) :
    execute_task o s t =
      execute_task o
        { clock := s.clock + o.dur t.model (buildPrompt t),
          calls := s.calls ++ [(t.model, buildPrompt t)] }
        { t with status := TaskStatus.running, model := fallbackModel } := by
  rw [execute_task.eq_def]
  dsimp only
  rw [buildPrompt_running, h2]
  simp [h1]

/-- Execution time of a task already on the fallback model: the duration of
its single remote call, whatever the outcome. -/
theorem execute_task_time_flash (o : Oracle) (s : ExecState) (t : GeminiTask)
    (h : t.model = fallbackModel) :
    (execute_task o s t).2.1.execution_time = some (o.dur t.model (buildPrompt t)) := by
  rw [execute_task.eq_def]
  dsimp only
  split <;> simp_all [buildPrompt]

/-- Full shape of a quota-exhausted second attempt on the fallback model. -/
theorem execute_task_flash_quota (o : Oracle) (s : ExecState) (t : GeminiTask)
    (h : t.model = fallbackModel)
    (h2 : o.gen fallbackModel (buildPrompt t) = RemoteOutcome.quotaExhausted) :
    execute_task o s t =
      ({ t with
          status := TaskStatus.failed
          error := some "Quota exceeded for both Pro and Flash models" },
        { task_id := t.id, status := TaskStatus.failed, result := none,
          error := some "Quota exceeded for both Pro and Flash models",
          execution_time := some (o.dur t.model (buildPrompt t)) },
        { clock := s.clock + o.dur t.model (buildPrompt t),
          calls := s.calls ++ [(t.model, buildPrompt t)] }) := by
  rw [execute_task.eq_def]
  dsimp only
  rw [buildPrompt_running, h, h2]
  simp

/-- Claim C1: for every task whose remote call reports quota-exhausted and whose
current model is not the fallback model, execute_task mutates the task's
model to the fallback model and retries the whole procedure exactly once
more (the ghost call log grows by exactly the two attempts); if that retry
also reports quota-exhausted, the task ends FAILED with no further
retries. -/
theorem quota_fallback_single_retry (o : Oracle) (s : ExecState) (t : GeminiTask)
    (h1 : t.model ≠ fallbackModel)
    (h2 : o.gen t.model (buildPrompt t) = RemoteOutcome.quotaExhausted)
    (h3 : o.gen fallbackModel (buildPrompt t) = RemoteOutcome.quotaExhausted) :
    (execute_task o s t).2.1.status = TaskStatus.failed ∧
    (execute_task o s t).2.1.error = some "Quota exceeded for both Pro and Flash models" ∧
    (execute_task o s t).1.model = fallbackModel ∧
    (execute_task o s t).2.2.calls =
      s.calls ++ [(t.model, buildPrompt t), (fallbackModel, buildPrompt t)] := by
  rw [execute_task_quota_retry o s t h1 h2]
  rw [execute_task_flash_quota o
      { clock := s.clock + o.dur t.model (buildPrompt t),
        calls := s.calls ++ [(t.model, buildPrompt t)] }
      { t with status := TaskStatus.running, model := fallbackModel } rfl h3]
  simp [buildPrompt]

/-- Witness for C1: with an oracle that always reports quota exhaustion, a
pro-model task fails after exactly the original attempt and one fallback
attempt. -/
theorem quota_fallback_single_retry_witness :
    (taskPro.model ≠ fallbackModel ∧
      oQuota.gen taskPro.model (buildPrompt taskPro) = RemoteOutcome.quotaExhausted ∧
      oQuota.gen fallbackModel (buildPrompt taskPro) = RemoteOutcome.quotaExhausted) ∧
    ((execute_task oQuota s0 taskPro).2.1.status = TaskStatus.failed ∧
      (execute_task oQuota s0 taskPro).2.1.error =
        some "Quota exceeded for both Pro and Flash models" ∧
      (execute_task oQuota s0 taskPro).1.model = fallbackModel ∧
      (execute_task oQuota s0 taskPro).2.2.calls =
        s0.calls ++ [(taskPro.model, buildPrompt taskPro),
          (fallbackModel, buildPrompt taskPro)]) :=
  ⟨⟨by decide, rfl, rfl⟩,
    quota_fallback_single_retry oQuota s0 taskPro (by decide) rfl rfl⟩

/-- Claim C10: when execute_task performs the quota-exhausted fallback retry, the
execution_time in the returned TaskResult is the duration of the retry
attempt only — the first attempt's duration is excluded, because the
recursive call restarts the timer. -/
theorem fallback_retry_timer_restart (o : Oracle) (s : ExecState) (t : GeminiTask)
    (h1 : t.model ≠ fallbackModel)
    (h2 : o.gen t.model (buildPrompt t) = RemoteOutcome.quotaExhausted) :
    (execute_task o s t).2.1.execution_time = some (o.dur fallbackModel (buildPrompt t)) := by
  rw [execute_task_quota_retry o s t h1 h2]
  rw [execute_task_time_flash o
      { clock := s.clock + o.dur t.model (buildPrompt t),
        calls := s.calls ++ [(t.model, buildPrompt t)] }
      { t with status := TaskStatus.running, model := fallbackModel } rfl]
  simp [buildPrompt]

/-- Witness for C10: under an oracle whose pro call takes 100 ticks and
fallback call takes 7 ticks, the retried task reports 7 ticks. -/
theorem fallback_retry_timer_restart_witness :
    (taskPro.model ≠ fallbackModel ∧
      oC10.gen taskPro.model (buildPrompt taskPro) = RemoteOutcome.quotaExhausted) ∧
    (execute_task oC10 s0 taskPro).2.1.execution_time =
      some (oC10.dur fallbackModel (buildPrompt taskPro)) :=
  ⟨⟨by decide, by decide⟩,
    fallback_retry_timer_restart oC10 s0 taskPro (by decide) (by decide)⟩

/-- Agreement of the client's prompt construction with the spec's wording
of the effective prompt. -/
theorem buildPrompt_eq_spec (t : GeminiTask) : buildPrompt t = specEffectivePrompt t := by
  cases h : t.context with
  | none => simp [buildPrompt, specEffectivePrompt, pyTruthy, h]
  | some l =>
    cases l with
    | nil => simp [buildPrompt, specEffectivePrompt, pyTruthy, h]
    | cons kv rest => simp [buildPrompt, specEffectivePrompt, pyTruthy, h]

/-- Claim C9: the first remote call issued by execute_task carries exactly the
effective prompt of the spec: context pairs rendered "key: value", joined
by newlines, with the original prompt on its own line when the context is
non-empty, and the bare prompt when the context is empty or absent. -/
theorem effective_prompt_sent (o : Oracle) (c : Nat) (t : GeminiTask) :
    ((execute_task o { clock := c, calls := [] } t).2.2.calls).head? =
      some (t.model, specEffectivePrompt t) := by
  obtain ⟨l, hl⟩ := execute_task_calls o { clock := c, calls := [] } t
  rw [hl, buildPrompt_eq_spec]
  simp

/-- Claim C6: execute_task is a total function into TaskResult — no modeled
outcome of the remote call escapes as an error — and every returned result
carries the task's identity and is either COMPLETED with a result text or
FAILED with an error text. -/
theorem execute_task_total_result (o : Oracle) (s : ExecState) (t : GeminiTask) :
    (execute_task o s t).2.1.task_id = t.id ∧
    (((execute_task o s t).2.1.status = TaskStatus.completed ∧
        (execute_task o s t).2.1.result.isSome = true) ∨
      ((execute_task o s t).2.1.status = TaskStatus.failed ∧
        (execute_task o s t).2.1.error.isSome = true)) :=
  execute_task_good o s t

/-! Lemmas about the batch execution paths. -/

theorem parallel_length (o : Oracle) (clocks : Nat → Nat) (ts : List GeminiTask) :
    (execute_tasks_parallel o clocks ts).length = ts.length := by
  simp [execute_tasks_parallel, List.enum_length]

theorem parallel_map_task_id (o : Oracle) (clocks : Nat → Nat) (ts : List GeminiTask) :
    (execute_tasks_parallel o clocks ts).map (fun r => r.task_id) =
      ts.map (fun t => t.id) := by
  unfold execute_tasks_parallel
  rw [List.map_map]
  have h : ∀ p ∈ ts.enum,
      ((fun r : TaskResult => r.task_id) ∘ fun p : Nat × GeminiTask =>
        (execute_task o { clock := clocks p.1, calls := [] } p.2).2.1) p = p.2.id :=
    fun p _ => (execute_task_good o { clock := clocks p.1, calls := [] } p.2).1
  rw [List.map_congr_left h]
  rw [show (fun p : Nat × GeminiTask => p.2.id) = (fun t : GeminiTask => t.id) ∘ Prod.snd
    from rfl]
  rw [← List.map_map, List.enum_map_snd]

theorem parallel_mem_good (o : Oracle) (clocks : Nat → Nat) (ts : List GeminiTask) :
    ∀ r ∈ execute_tasks_parallel o clocks ts,
      (r.status = TaskStatus.completed ∧ r.result.isSome = true) ∨
        (r.status = TaskStatus.failed ∧ r.error.isSome = true) := by
  intro r hr
  rw [execute_tasks_parallel, List.mem_map] at hr
  obtain ⟨p, _, hp⟩ := hr
  rw [← hp]
  exact (execute_task_good o { clock := clocks p.1, calls := [] } p.2).2

theorem sequential_length (o : Oracle) (s : ExecState) (ts : List GeminiTask) :
    ((execute_tasks_sequential o s ts).1).length = ts.length := by
  induction ts generalizing s with
  | nil => simp [execute_tasks_sequential]
  | cons t ts ih => simp [execute_tasks_sequential, ih]

theorem sequential_map_task_id (o : Oracle) (s : ExecState) (ts : List GeminiTask) :
    ((execute_tasks_sequential o s ts).1).map (fun r => r.task_id) =
      ts.map (fun t => t.id) := by
  induction ts generalizing s with
  | nil => simp [execute_tasks_sequential]
  | cons t ts ih =>
    simp [execute_tasks_sequential, ih, (execute_task_good o s t).1]

theorem sequential_mem_good (o : Oracle) (s : ExecState) (ts : List GeminiTask) :
    ∀ r ∈ (execute_tasks_sequential o s ts).1,
      (r.status = TaskStatus.completed ∧ r.result.isSome = true) ∨
        (r.status = TaskStatus.failed ∧ r.error.isSome = true) := by
  induction ts generalizing s with
  | nil => simp [execute_tasks_sequential]
  | cons t ts ih =>
    intro r hr
    simp only [execute_tasks_sequential, List.mem_cons] at hr
    rcases hr with hr | hr
    · rw [hr]
      exact (execute_task_good o s t).2
    · exact ih _ r hr

/-- Claim C4: the list returned by execute_tasks_parallel has the same length as
the input, and the result at every index i is the TaskResult of the task at
index i, for every schedule of start instants — i.e. regardless of the
order in which tasks complete. -/
theorem parallel_results_index_aligned (o : Oracle) (clocks : Nat → Nat)
    (tasks : List GeminiTask) :
    (execute_tasks_parallel o clocks tasks).length = tasks.length ∧
    ∀ i : Nat, ((execute_tasks_parallel o clocks tasks)[i]?).map
        (fun r : TaskResult => r.task_id) =
      (tasks[i]?).map (fun t : GeminiTask => t.id) := by
  refine ⟨parallel_length o clocks tasks, fun i => ?_⟩
  rw [← List.getElem?_map, parallel_map_task_id, List.getElem?_map]

/-! Lemmas about the priority sort. -/

theorem taskLE_trans (a b c : GeminiTask) (hab : taskLE a b = true)
    (hbc : taskLE b c = true) : taskLE a c = true := by
  simp only [taskLE, decide_eq_true_eq] at *
  omega

theorem taskLE_total (a b : GeminiTask) : (taskLE a b || taskLE b a) = true := by
  simp only [taskLE, Bool.or_eq_true, decide_eq_true_eq]
  omega

theorem sortTasks_perm (ts : List GeminiTask) : (sortTasks ts).Perm ts :=
  List.mergeSort_perm ts taskLE

theorem sortTasks_sorted (ts : List GeminiTask) :
    (sortTasks ts).Pairwise fun a b => priorityIndex b.priority ≤ priorityIndex a.priority :=
  (List.sorted_mergeSort taskLE_trans taskLE_total ts).imp fun hab => by
    simpa [taskLE] using hab

theorem sortTasks_stable (ts : List GeminiTask) (p : TaskPriority) :
    (sortTasks ts).filter (fun t => decide (t.priority = p)) =
      ts.filter (fun t => decide (t.priority = p)) := by
  have hpw : (ts.filter (fun t => decide (t.priority = p))).Pairwise
      (fun a b => taskLE a b = true) := by
    apply List.pairwise_of_forall_mem_list
    intro a ha b hb
    have hpa : a.priority = p := by simpa using (List.mem_filter.mp ha).2
    have hpb : b.priority = p := by simpa using (List.mem_filter.mp hb).2
    simp [taskLE, hpa, hpb]
  have hsub : (ts.filter (fun t => decide (t.priority = p))).Sublist (sortTasks ts) :=
    List.sublist_mergeSort taskLE_trans taskLE_total hpw (List.filter_sublist ts)
  have hself : (ts.filter (fun t => decide (t.priority = p))).filter
      (fun t => decide (t.priority = p)) = ts.filter (fun t => decide (t.priority = p)) :=
    List.filter_eq_self.mpr fun a ha => (List.mem_filter.mp ha).2
  have hsub2 : (ts.filter (fun t => decide (t.priority = p))).Sublist
      ((sortTasks ts).filter (fun t => decide (t.priority = p))) := by
    rw [← hself]
    exact hsub.filter _
  have hlen : (ts.filter (fun t => decide (t.priority = p))).length =
      ((sortTasks ts).filter (fun t => decide (t.priority = p))).length := by
    rw [← List.countP_eq_length_filter, ← List.countP_eq_length_filter]
    exact ((sortTasks_perm ts).countP_eq _).symm
  exact (hsub2.eq_of_length hlen).symm

theorem sortTasks_example :
    sortTasks exampleTasks =
      [mkPrioTask "u1" TaskPriority.urgent, mkPrioTask "u2" TaskPriority.urgent,
        mkPrioTask "m" TaskPriority.medium, mkPrioTask "l" TaskPriority.low] := by
  simp [sortTasks, exampleTasks, List.mergeSort, List.merge, taskLE, priorityIndex, mkPrioTask]

theorem execute_batch_results (o : Oracle) (clocks : Nat → Nat) (wall : Nat)
    (orch : Orchestrator) (s : ExecState) (batch : TaskBatch) :
    (execute_batch o clocks wall orch s batch).1.results =
      if batch.parallel then execute_tasks_parallel o clocks (sortTasks batch.tasks)
      else (execute_tasks_sequential o s (sortTasks batch.tasks)).1 := by
  by_cases hb : batch.parallel <;> simp [execute_batch, hb]

/-- Counterexample for C2: for submission priorities [LOW, URGENT, MEDIUM,
URGENT] the sort of execute_batch does not produce the claimed order
[URGENT, URGENT, LOW, MEDIUM] — descending order puts MEDIUM before
LOW. -/
theorem priority_sort_order_counterexample :
    ¬((sortTasks exampleTasks).map (fun t => t.priority) =
      [TaskPriority.urgent, TaskPriority.urgent, TaskPriority.low, TaskPriority.medium]) := by
  rw [sortTasks_example]
  decide

/-- Claim C2 as amended: execute_batch sorts the batch's tasks by priority
descending (URGENT first, LOW last) with a stable sort — its output is
pairwise descending in priority index, and the subsequence of any fixed
priority keeps the original submission order; for a batch whose priorities
are [LOW, URGENT, MEDIUM, URGENT] in submission order, the execution order
is [URGENT, URGENT, MEDIUM, LOW], with the first URGENT before the second
URGENT as submitted. -/
theorem priority_sort_stable_descending (o : Oracle) (clocks : Nat → Nat) (wall : Nat)
    (orch : Orchestrator) (s : ExecState) :
    (∀ ts : List GeminiTask, (sortTasks ts).Pairwise
        fun a b => priorityIndex b.priority ≤ priorityIndex a.priority) ∧
    (∀ (ts : List GeminiTask) (p : TaskPriority),
        (sortTasks ts).filter (fun t => decide (t.priority = p)) =
          ts.filter (fun t => decide (t.priority = p))) ∧
    ((sortTasks exampleTasks).map (fun t => t.id) = ["u1", "u2", "m", "l"]) ∧
    (((execute_batch o clocks wall orch s exampleBatch).1.results).map
        (fun r => r.task_id) = ["u1", "u2", "m", "l"]) := by
  refine ⟨sortTasks_sorted, sortTasks_stable, ?_, ?_⟩
  · rw [sortTasks_example]
    decide
  · rw [execute_batch_results]
    have hb : exampleBatch.parallel = true := rfl
    rw [hb, if_pos rfl, parallel_map_task_id,
      show exampleBatch.tasks = exampleTasks from rfl, sortTasks_example]
    decide

theorem execute_batch_completed_tasks (o : Oracle) (clocks : Nat → Nat) (wall : Nat)
    (orch : Orchestrator) (s : ExecState) (batch : TaskBatch) :
    (execute_batch o clocks wall orch s batch).1.completed_tasks =
      ((execute_batch o clocks wall orch s batch).1.results).countP
        (fun r => decide (r.status = TaskStatus.completed)) := by
  by_cases hb : batch.parallel <;> simp [execute_batch, hb]

theorem execute_batch_failed_tasks (o : Oracle) (clocks : Nat → Nat) (wall : Nat)
    (orch : Orchestrator) (s : ExecState) (batch : TaskBatch) :
    (execute_batch o clocks wall orch s batch).1.failed_tasks =
      ((execute_batch o clocks wall orch s batch).1.results).countP
        (fun r => decide (r.status = TaskStatus.failed)) := by
  by_cases hb : batch.parallel <;> simp [execute_batch, hb]

theorem execute_batch_total_tasks (o : Oracle) (clocks : Nat → Nat) (wall : Nat)
    (orch : Orchestrator) (s : ExecState) (batch : TaskBatch) :
    (execute_batch o clocks wall orch s batch).1.total_tasks =
      ((execute_batch o clocks wall orch s batch).1.results).length := by
  by_cases hb : batch.parallel <;> simp [execute_batch, hb]

theorem execute_batch_mem_good (o : Oracle) (clocks : Nat → Nat) (wall : Nat)
    (orch : Orchestrator) (s : ExecState) (batch : TaskBatch) :
    ∀ r ∈ (execute_batch o clocks wall orch s batch).1.results,
      (r.status = TaskStatus.completed ∧ r.result.isSome = true) ∨
        (r.status = TaskStatus.failed ∧ r.error.isSome = true) := by
  rw [execute_batch_results]
  by_cases hb : batch.parallel
  · rw [if_pos hb]
    exact parallel_mem_good o clocks (sortTasks batch.tasks)
  · rw [if_neg hb]
    exact sequential_mem_good o s (sortTasks batch.tasks)

theorem countP_completed_add_failed (rs : List TaskResult)
    (h : ∀ r ∈ rs, r.status = TaskStatus.completed ∨ r.status = TaskStatus.failed) :
    rs.countP (fun r => decide (r.status = TaskStatus.completed)) +
      rs.countP (fun r => decide (r.status = TaskStatus.failed)) = rs.length := by
  induction rs with
  | nil => simp
  | cons r rest ih =>
    have hr := h r (by simp)
    have hrest := ih fun x hx => h x (by simp [hx])
    rcases hr with hc | hf
    · simp [List.countP_cons, hc]
      omega
    · simp [List.countP_cons, hf]
      omega

/-- Claim C3: for every BatchResult returned by execute_batch, completed plus
failed equals total equals the number of results; each executed task yields
exactly one TaskResult (one per input task) whose final status is COMPLETED
or FAILED. -/
theorem batch_result_tally (o : Oracle) (clocks : Nat → Nat) (wall : Nat)
    (orch : Orchestrator) (s : ExecState) (batch : TaskBatch) :
    (execute_batch o clocks wall orch s batch).1.completed_tasks +
        (execute_batch o clocks wall orch s batch).1.failed_tasks =
      (execute_batch o clocks wall orch s batch).1.total_tasks ∧
    (execute_batch o clocks wall orch s batch).1.total_tasks =
      ((execute_batch o clocks wall orch s batch).1.results).length ∧
    ((execute_batch o clocks wall orch s batch).1.results).length =
      batch.tasks.length ∧
    ((execute_batch o clocks wall orch s batch).1.results).all
      (fun r => decide (r.status = TaskStatus.completed) ||
        decide (r.status = TaskStatus.failed)) = true := by
  refine ⟨?_, execute_batch_total_tasks o clocks wall orch s batch, ?_, ?_⟩
  · rw [execute_batch_completed_tasks, execute_batch_failed_tasks,
      execute_batch_total_tasks]
    exact countP_completed_add_failed _ fun r hr =>
      (execute_batch_mem_good o clocks wall orch s batch r hr).imp And.left And.left
  · rw [execute_batch_results]
    by_cases hb : batch.parallel
    · rw [if_pos hb, parallel_length]
      exact ((sortTasks_perm batch.tasks).length_eq)
    · rw [if_neg hb, sequential_length]
      exact ((sortTasks_perm batch.tasks).length_eq)
  · rw [List.all_eq_true]
    intro r hr
    rcases execute_batch_mem_good o clocks wall orch s batch r hr with ⟨hc, _⟩ | ⟨hf, _⟩
    · simp [hc]
    · simp [hf]

/-- Claim C5: execute_batch moves the batch's identity from the active registry
to the completed registry: afterwards the id is absent from active_batches
and maps to the returned BatchResult in completed_batches; and
get_batch_status never reports any batch id as both active and completed
(the active registry is consulted first, the completed one only
otherwise). -/
theorem batch_lifecycle_move (o : Oracle) (clocks : Nat → Nat) (wall : Nat)
    (orch : Orchestrator) (s : ExecState) (batch : TaskBatch) :
    (execute_batch o clocks wall orch s batch).2.1.active_batches batch.id = none ∧
    (execute_batch o clocks wall orch s batch).2.1.completed_batches batch.id =
      some (execute_batch o clocks wall orch s batch).1 ∧
    ∀ (orch2 : Orchestrator) (bid : String),
      (reportsActive (get_batch_status orch2 bid) &&
        reportsCompleted (get_batch_status orch2 bid)) = false := by
  refine ⟨?_, ?_, ?_⟩
  · by_cases h : (orch.active_batches batch.id).isSome
    · simp [execute_batch, h]
    · simp [execute_batch, h]
      exact Option.not_isSome_iff_eq_none.mp h
  · by_cases h : (orch.active_batches batch.id).isSome <;> simp [execute_batch, h]
  · intro orch2 bid
    unfold get_batch_status
    cases ha : orch2.active_batches bid
    · cases hc : orch2.completed_batches bid <;> simp [reportsActive, reportsCompleted]
    · simp [reportsActive, reportsCompleted]

theorem collectResults_eq_find (rs : List TaskResult) :
    collectResults rs =
      match rs.find? (fun r => !decide (r.status = TaskStatus.completed)) with
      | none => Except.ok (rs.map fun r => r.result)
      | some r => Except.error ("Task " ++ r.task_id ++ " failed: " ++ pyStr r.error) := by
  induction rs with
  | nil => simp [collectResults]
  | cons r rest ih =>
    by_cases hc : r.status = TaskStatus.completed
    · rw [show collectResults (r :: rest) =
          (match collectResults rest with
            | Except.ok xs => Except.ok (r.result :: xs)
            | Except.error e => Except.error e) by simp [collectResults, hc]]
      rw [ih]
      rw [List.find?_cons]
      cases hfind : rest.find? (fun x => !decide (x.status = TaskStatus.completed)) <;>
        simp [hc, hfind]
    · rw [show collectResults (r :: rest) =
          Except.error ("Task " ++ r.task_id ++ " failed: " ++ pyStr r.error)
          by simp [collectResults, hc]]
      rw [List.find?_cons]
      simp [hc]

theorem parallelAskResults_good (o : Oracle) (clocks : Nat → Nat) (wall : Nat)
    (orch : Orchestrator) (s : ExecState) (ids : Nat → String) (batch_id : String)
    (prompts : List String) (model : String)
    (context : Option (List (String × String))) :
    ∀ r ∈ parallelAskResults o clocks wall orch s ids batch_id prompts model context,
      (r.status = TaskStatus.completed ∧ r.result.isSome = true) ∨
        (r.status = TaskStatus.failed ∧ r.error.isSome = true) := by
  unfold parallelAskResults
  exact execute_batch_mem_good o clocks wall _ s _

/-- Claim C7: parallel_ask returns no partial results — if any task of the batch
ended FAILED, it signals a failure naming the first failing task found
while iterating the batch results in order; if every task ended COMPLETED,
it returns the list of result texts in batch result order.  The results
iterated over are exactly the BatchResult's results, each of which is
COMPLETED or FAILED. -/
theorem parallel_ask_first_failure (o : Oracle) (clocks : Nat → Nat) (wall : Nat)
    (orch : Orchestrator) (s : ExecState) (ids : Nat → String) (batch_id : String)
    (prompts : List String) (model : String)
    (context : Option (List (String × String))) :
    ((parallel_ask o clocks wall orch s ids batch_id prompts model context).1 =
      match (parallelAskResults o clocks wall orch s ids batch_id prompts model
          context).find? (fun r => !decide (r.status = TaskStatus.completed)) with
      | none =>
        Except.ok ((parallelAskResults o clocks wall orch s ids batch_id prompts model
          context).map fun r => r.result)
      | some r =>
        Except.error ("Task " ++ r.task_id ++ " failed: " ++ pyStr r.error)) ∧
    (parallelAskResults o clocks wall orch s ids batch_id prompts model context).all
      (fun r => decide (r.status = TaskStatus.completed) ||
        decide (r.status = TaskStatus.failed)) = true := by
  constructor
  · exact collectResults_eq_find
      (parallelAskResults o clocks wall orch s ids batch_id prompts model context)
  · rw [List.all_eq_true]
    intro r hr
    rcases parallelAskResults_good o clocks wall orch s ids batch_id prompts model
        context r hr with ⟨hc, _⟩ | ⟨hf, _⟩
    · simp [hc]
    · simp [hf]

/-- Claim C8: quick_ask creates a single task and executes it without touching
either batch registry (the orchestrator state it returns is the one it
received); it returns the task's result text when the execution ends
COMPLETED, and otherwise signals a failure carrying the task's error text —
and the executed task always ends COMPLETED with a result text or FAILED
with an error text. -/
theorem quick_ask_spec (o : Oracle) (orch : Orchestrator) (s : ExecState)
    (task_id : String) (prompt : String) (model : String)
    (context : Option (List (String × String))) :
    (quick_ask o orch s task_id prompt model context).2.1 = orch ∧
    (quick_ask o orch s task_id prompt model context).1 =
      (if (execute_task o s (create_task task_id prompt model TaskPriority.medium
          context)).2.1.status = TaskStatus.completed then
        Except.ok (execute_task o s (create_task task_id prompt model
          TaskPriority.medium context)).2.1.result
      else
        Except.error ("Task failed: " ++ pyStr (execute_task o s (create_task task_id
          prompt model TaskPriority.medium context)).2.1.error)) ∧
    (((execute_task o s (create_task task_id prompt model TaskPriority.medium
          context)).2.1.status = TaskStatus.completed ∧
        (execute_task o s (create_task task_id prompt model TaskPriority.medium
          context)).2.1.result.isSome = true) ∨
      ((execute_task o s (create_task task_id prompt model TaskPriority.medium
          context)).2.1.status = TaskStatus.failed ∧
        (execute_task o s (create_task task_id prompt model TaskPriority.medium
          context)).2.1.error.isSome = true)) := by
  refine ⟨?_, ?_, (execute_task_good o s _).2⟩
  · by_cases h : (execute_task o s (create_task task_id prompt model
        TaskPriority.medium context)).2.1.status = TaskStatus.completed <;>
      simp [quick_ask, h]
  · by_cases h : (execute_task o s (create_task task_id prompt model
        TaskPriority.medium context)).2.1.status = TaskStatus.completed <;>
      simp [quick_ask, h]

end GeminiMcp
